import Mathlib

/-!
Verification of the request-lifecycle engine of the exchange/return-tracking
service (src/server.js, second variant at lines 1721-3710, paired with
src/config/db-helpers.js, first variant at lines 1-227).

The JavaScript is shallowly embedded: each route handler or helper becomes a
pure Lean function over an explicit record type; external collaborators
(Shopify, Shiprocket, Razorpay, the clock) are passed in as oracle arguments;
persistence is the keyed record for the one `requestId` at hand, so a stored
row is `Option Request`.  Side-effect invocations (reverse pickup, replacement
order, forward shipment, payment finalization) are counted in the outputs so
at-most-once properties can be stated.  JS truthiness on nullable strings is
modelled by `truthy`; JS `String.prototype.includes` / `endsWith` by infix /
suffix tests on the character lists.  Columns of the `requests` table that no
modelled code path reads or writes (image URLs, line items, free-text
comments, customer identity fields) are elided from the record.
-/

/-- JS truthiness of a nullable string: `null`/`undefined` and `''` are falsy. -/
def truthy : Option String → Bool
  | none => false
  | some s => !s.isEmpty

/-- Model of JS `s.includes(t)` : `t` occurs as a contiguous substring of `s`. -/
def jsIncludes (s t : String) : Bool := decide (t.data <:+: s.data)

/-- Model of JS `s.endsWith(t)` : `t` is a suffix of `s`. -/
def jsEndsWith (s t : String) : Bool := decide (t.data <:+ s.data)

/-- Model of JS `s.replace(/\D/g, '')` : keep only the decimal digits. -/
def digitsOnly (s : String) : String := ⟨s.data.filter Char.isDigit⟩

/-- Model of JS `s.slice(-n)` : the last `n` characters (all of `s` if shorter). -/
def sliceLast (n : Nat) (s : String) : String := ⟨s.data.drop (s.data.length - n)⟩

/-- Model of JS `s.toUpperCase()` (character-wise ASCII upcasing). -/
def jsToUpper (s : String) : String := ⟨s.data.map Char.toUpper⟩

/-- Model of JS `s.toLowerCase()` (character-wise ASCII downcasing). -/
def jsToLower (s : String) : String := ⟨s.data.map Char.toLower⟩

/-- Model of JS `s.trim()` : strip leading and trailing whitespace. -/
def jsTrim (s : String) : String :=
  ⟨((s.data.dropWhile Char.isWhitespace).reverse.dropWhile Char.isWhitespace).reverse⟩

/-- Model of JS `s.startsWith(t)`. -/
def jsStartsWith (s t : String) : Bool := decide (t.data <+: s.data)

/-- Model of JS `s.substring(1)` as used on order numbers. -/
def jsDropOne (s : String) : String := ⟨s.data.drop 1⟩

/-- The status enum stored in the `status` column (and, for exchanges, in
`forward_status`).  These are exactly the values the code ever writes. -/
inductive Status
  | waiting_payment
  | pending
  | scheduled
  | picked_up
  | in_transit
  | delivered
  | approved
  | rejected
deriving DecidableEq, Repr

/-- `type` column: a request is a return or an exchange. -/
inductive ReqType
  | ret
  | exch
deriving DecidableEq, Repr

/-- A stored row of the `requests` table (camelCase view, as produced by
`convertFromSnakeCase` in db-helpers.js).  Claim-irrelevant columns
(items, images, comments, customer identity, new-address fields) are elided. -/
structure Request where
  requestId : String
  orderNumber : String
  type : ReqType
  status : Status
  reason : String
  paymentId : Option String
  paymentAmount : Option Int
  awbNumber : Option String
  shipmentId : Option String
  pickupDate : Option String
  adminNotes : Option String
  approvedAt : Option String
  rejectedAt : Option String
  deliveredAt : Option String
  pickedUpAt : Option String
  inTransitAt : Option String
  forwardShipmentId : Option String
  forwardAwbNumber : Option String
  forwardStatus : Option Status
deriving DecidableEq, Repr

/-- The `updates` argument of `updateRequestStatus` (db-helpers.js line 133).
`none` models a field the caller left `undefined`. -/
structure Updates where
  status : Option Status := none
  adminNotes : Option String := none
  awbNumber : Option String := none
  shipmentId : Option String := none
  pickupDate : Option String := none
  paymentId : Option String := none
  paymentAmount : Option Int := none
  deliveredAt : Option String := none
  pickedUpAt : Option String := none
  inTransitAt : Option String := none
  forwardShipmentId : Option String := none
  forwardAwbNumber : Option String := none
  forwardStatus : Option Status := none
deriving DecidableEq, Repr

/-- The `updateData` object that db-helpers.js `updateRequestStatus` actually
sends to the database.  A `none` field is a key that is absent (or was
`undefined`, which the JSON serialization drops), so the column is untouched. -/
structure UpdatePayload where
  status : Option Status := none
  adminNotes : Option String := none
  approvedAt : Option String := none
  rejectedAt : Option String := none
  awbNumber : Option String := none
  shipmentId : Option String := none
  pickupDate : Option String := none
deriving DecidableEq, Repr

/-- db-helpers.js lines 134-147: build the `updateData` object.
`status` and `admin_notes` are copied through; `approved_at`/`rejected_at` are
stamped with the current time when the new status is `approved`/`rejected`;
`awb_number`, `shipment_id`, `pickup_date` are included only when truthy.
All other fields of `updates` are never read. -/
def buildUpdateData (u : Updates) (now : String) : UpdatePayload :=
  { status := u.status
    adminNotes := u.adminNotes
    approvedAt := if u.status = some Status.approved then some now else none
    rejectedAt := if u.status = some Status.rejected then some now else none
    awbNumber := if truthy u.awbNumber then u.awbNumber else none
    shipmentId := if truthy u.shipmentId then u.shipmentId else none
    pickupDate := if truthy u.pickupDate then u.pickupDate else none }

/-- The database `update` call: every column whose key is present in the
payload is overwritten, every other column keeps its stored value. -/
def applyUpdate (r : Request) (p : UpdatePayload) : Request :=
  { r with
    status := p.status.getD r.status
    adminNotes := if p.adminNotes.isSome then p.adminNotes else r.adminNotes
    approvedAt := if p.approvedAt.isSome then p.approvedAt else r.approvedAt
    rejectedAt := if p.rejectedAt.isSome then p.rejectedAt else r.rejectedAt
    awbNumber := if p.awbNumber.isSome then p.awbNumber else r.awbNumber
    shipmentId := if p.shipmentId.isSome then p.shipmentId else r.shipmentId
    pickupDate := if p.pickupDate.isSome then p.pickupDate else r.pickupDate }

/-- db-helpers.js lines 133-157, `updateRequestStatus`, acting on the stored
row `r` for the given request id at time `now`. -/
def updateRequestStatus (r : Request) (u : Updates) (now : String) : Request :=
  applyUpdate r (buildUpdateData u now)

/-- Full field-by-field characterisation of `updateRequestStatus`, shared by
the claim proofs. -/
theorem updateRequestStatus_spec (r : Request) (u : Updates) (now : String) :
    (updateRequestStatus r u now).requestId = r.requestId ∧
    (updateRequestStatus r u now).orderNumber = r.orderNumber ∧
    (updateRequestStatus r u now).type = r.type ∧
    (updateRequestStatus r u now).reason = r.reason ∧
    (updateRequestStatus r u now).paymentId = r.paymentId ∧
    (updateRequestStatus r u now).paymentAmount = r.paymentAmount ∧
    (updateRequestStatus r u now).deliveredAt = r.deliveredAt ∧
    (updateRequestStatus r u now).pickedUpAt = r.pickedUpAt ∧
    (updateRequestStatus r u now).inTransitAt = r.inTransitAt ∧
    (updateRequestStatus r u now).forwardShipmentId = r.forwardShipmentId ∧
    (updateRequestStatus r u now).forwardAwbNumber = r.forwardAwbNumber ∧
    (updateRequestStatus r u now).forwardStatus = r.forwardStatus ∧
    (updateRequestStatus r u now).status = u.status.getD r.status ∧
    (updateRequestStatus r u now).adminNotes
      = (if u.adminNotes.isSome then u.adminNotes else r.adminNotes) ∧
    (updateRequestStatus r u now).awbNumber
      = (if truthy u.awbNumber then u.awbNumber else r.awbNumber) ∧
    (updateRequestStatus r u now).shipmentId
      = (if truthy u.shipmentId then u.shipmentId else r.shipmentId) ∧
    (updateRequestStatus r u now).pickupDate
      = (if truthy u.pickupDate then u.pickupDate else r.pickupDate) ∧
    (updateRequestStatus r u now).approvedAt
      = (if u.status = some Status.approved then some now else r.approvedAt) ∧
    (updateRequestStatus r u now).rejectedAt
      = (if u.status = some Status.rejected then some now else r.rejectedAt) := by
  unfold updateRequestStatus applyUpdate buildUpdateData
  refine ⟨rfl, rfl, rfl, rfl, rfl, rfl, rfl, rfl, rfl, rfl, rfl, rfl, rfl, ?_, ?_, ?_, ?_, ?_, ?_⟩
  · cases u.adminNotes <;> simp
  · by_cases h : truthy u.awbNumber <;> simp [h] <;> cases hv : u.awbNumber <;>
      simp_all [truthy]
  · by_cases h : truthy u.shipmentId <;> simp [h] <;> cases hv : u.shipmentId <;>
      simp_all [truthy]
  · by_cases h : truthy u.pickupDate <;> simp [h] <;> cases hv : u.pickupDate <;>
      simp_all [truthy]
  · by_cases h : u.status = some Status.approved <;> simp [h]
  · by_cases h : u.status = some Status.rejected <;> simp [h]

/-- The data a successful Shiprocket pickup / shipment creation call returns
(`shipment_id`, `awb_code`, `pickup_scheduled_date`).  An overall failure of
`createShiprocketReturnOrder` / `createShiprocketForwardOrder` (thrown and
caught, or the adapter returning `null` on a validation error) is `none` at
the call sites, since both adapters catch internally and return `null`. -/
structure SrResult where
  shipmentId : String
  awbCode : Option String
  pickupDate : Option String
deriving DecidableEq, Repr

/-- The fields of the `requestData` object that a submit handler passes to
`createRequest` (server.js lines 3007-3021): note it includes the `status`
the handler computed. -/
structure RequestData where
  requestId : String
  orderNumber : String
  type : ReqType
  status : Status
  reason : String
  paymentId : Option String
  paymentAmount : Option Int
  awbNumber : Option String
  shipmentId : Option String
  pickupDate : Option String
deriving DecidableEq, Repr

/-- db-helpers.js lines 8-39, `createRequest`: the inserted row.  The insert
does not use `requestData.status`; it stores
`requestData.awbNumber ? 'scheduled' : 'pending'` (line 19). -/
def createRequest (rd : RequestData) : Request :=
  { requestId := rd.requestId
    orderNumber := rd.orderNumber
    type := rd.type
    status := if truthy rd.awbNumber then Status.scheduled else Status.pending
    reason := rd.reason
    paymentId := rd.paymentId
    paymentAmount := rd.paymentAmount
    awbNumber := rd.awbNumber
    shipmentId := rd.shipmentId
    pickupDate := rd.pickupDate
    adminNotes := none
    approvedAt := none
    rejectedAt := none
    deliveredAt := none
    pickedUpAt := none
    inTransitAt := none
    forwardShipmentId := none
    forwardAwbNumber := none
    forwardStatus := none }

/-- Response of a submit endpoint, as far as the claims need it. -/
inductive SubmitResp
  | configError
  | paymentInvalid
  | paymentNotSuccessful
  | submitted (requestId : String)
deriving DecidableEq, Repr

/-- Outcome of a submit call: the HTTP response, the row persisted by
`createRequest` (`none` when the endpoint failed before the insert), and how
many times `createShiprocketReturnOrder` was invoked. -/
structure SubmitOut where
  resp : SubmitResp
  record : Option Request
  pickupCalls : Nat
deriving DecidableEq, Repr

/-- server.js lines 2898-3041 (`POST /api/submit-return`) and its twin
lines 2739-2895 (`POST /api/submit-exchange`); the two handlers share this
logic with `type` fixed to return/exchange.

Oracles: `razorpayConfigured` models the `razorpay` client being configured;
`paymentFetch` is the gateway status for the supplied payment id (`none` when
`razorpay.payments.fetch` throws); `shiprocketEmail` models
`process.env.SHIPROCKET_EMAIL`; `pickup` is the result of
`createShiprocketReturnOrder` if it is invoked. -/
def submitRequest (type : ReqType) (requestId orderNumber reason : String)
    (bodyPaymentId : Option String) (bodyPaymentAmount : Option Int)
    (razorpayConfigured : Bool) (paymentFetch : Option String)
    (shiprocketEmail : Bool) (pickup : Option SrResult) : SubmitOut :=
  let isFeeWaived := reason = "defective" ∨ reason = "wrong_item"
  let verifyStep : Except SubmitResp Bool :=
    if truthy bodyPaymentId ∧ ¬isFeeWaived then
      if ¬razorpayConfigured then Except.error SubmitResp.configError
      else
        match paymentFetch with
        | none => Except.error SubmitResp.paymentInvalid
        | some st =>
          if st = "captured" ∨ st = "authorized" then Except.ok true
          else Except.error SubmitResp.paymentNotSuccessful
    else Except.ok false
  match verifyStep with
  | Except.error e => ⟨e, none, 0⟩
  | Except.ok paymentVerified =>
    let needsPayment := ¬isFeeWaived ∧ ¬paymentVerified
    let pickupCalls := if ¬needsPayment ∧ shiprocketEmail then 1 else 0
    let sr : Option SrResult :=
      if ¬needsPayment ∧ shiprocketEmail then
        match pickup with
        | some sr => if !sr.shipmentId.isEmpty then some sr else none
        | none => none
      else none
    let awbNumber := sr.bind SrResult.awbCode
    let shipmentId := sr.map SrResult.shipmentId
    let pickupDate := sr.bind SrResult.pickupDate
    let record := createRequest
      { requestId := requestId
        orderNumber := orderNumber
        type := type
        reason := reason
        paymentId := bodyPaymentId
        paymentAmount := bodyPaymentAmount
        awbNumber := awbNumber
        shipmentId := shipmentId
        pickupDate := pickupDate
        status :=
          if needsPayment then Status.waiting_payment
          else if truthy awbNumber ∨ truthy shipmentId then Status.scheduled
          else Status.pending }
    ⟨SubmitResp.submitted requestId, some record, pickupCalls⟩

/-- Return value of `finalizeRequestAfterPayment` (server.js lines 2669-2736):
`failure err` for `{success:false, error}`, `alreadyProcessed` for
`{success:true, alreadyProcessed:true}`, `finalized st` for
`{success:true, status}`.  No variant carries the stored record. -/
inductive FinalizeResult
  | failure (err : String)
  | alreadyProcessed
  | finalized (st : Status)
deriving DecidableEq, Repr

/-- Outcome of `finalizeRequestAfterPayment`: the stored row afterwards, the
returned value, and how many times `createShiprocketReturnOrder` ran. -/
structure FinalizeOut where
  db : Option Request
  result : FinalizeResult
  pickupCalls : Nat
deriving DecidableEq, Repr

/-- server.js lines 2669-2736, `finalizeRequestAfterPayment(requestId,
paymentId, paymentAmount)`.  `db` is the stored row for `requestId`
(`getRequestById`); `shiprocketEmail` models `process.env.SHIPROCKET_EMAIL`;
`pickup` is the `createShiprocketReturnOrder` result if invoked. -/
def finalizeRequestAfterPayment (db : Option Request) (paymentId : String)
    (paymentAmount : Option Int) (shiprocketEmail : Bool)
    (pickup : Option SrResult) (now : String) : FinalizeOut :=
  match db with
  | none => ⟨none, FinalizeResult.failure "Request not found", 0⟩
  | some r =>
    if r.status ≠ Status.waiting_payment then
      ⟨some r, FinalizeResult.alreadyProcessed, 0⟩
    else
      let base : Updates :=
        { paymentId := some paymentId
          paymentAmount := paymentAmount
          status := some Status.pending }
      let pickupCalls := if shiprocketEmail then 1 else 0
      let updates : Updates :=
        if shiprocketEmail then
          match pickup with
          | some sr =>
            if !sr.shipmentId.isEmpty then
              { base with
                status := some Status.scheduled
                awbNumber := sr.awbCode
                shipmentId := some sr.shipmentId
                pickupDate := sr.pickupDate }
            else base
          | none => base
        else base
      let r2 := updateRequestStatus r updates now
      ⟨some r2, FinalizeResult.finalized (updates.status.getD Status.pending), pickupCalls⟩

/-- HTTP response of the approve handler (server.js lines 3346-3446):
`scheduledOk` is the early return after a successful pickup initiation,
`pickupFailed` the 500 when Shiprocket returned no shipment data,
`configMissing` the 400 when the Shopify order or config is missing,
`approvedOk` the final success response. -/
inductive ApproveResp
  | notFound
  | scheduledOk (record : Request)
  | pickupFailed
  | configMissing
  | approvedOk (record : Request)
deriving DecidableEq, Repr

/-- Outcome of an approve call: stored row afterwards, response, and call
counts of `createShiprocketReturnOrder` (reverse pickup),
`createShopifyExchangeOrder` (replacement order) and
`createShiprocketForwardOrder` (forward shipment). -/
structure ApproveOut where
  db : Option Request
  resp : ApproveResp
  reversePickupCalls : Nat
  replacementOrderCalls : Nat
  forwardShipmentCalls : Nat
deriving DecidableEq, Repr

/-- server.js lines 3346-3446, `POST /api/admin/approve` (after admin auth).

Oracles: `shiprocketEmail` models `process.env.SHIPROCKET_EMAIL`;
`shopifyOrderFound` whether the Shopify order fetch in the pending branch
succeeded; `pickup` the `createShiprocketReturnOrder` result if invoked;
`exchangeOrder` the `createShopifyExchangeOrder` result (`some name` when an
order with a truthy name/id came back, `none` otherwise — the adapter catches
internally and returns `null`, so the handler's catch branch that would append
a replacement-order warning is unreachable); `forward` the
`createShiprocketForwardOrder` result if invoked. -/
def approveRequest (db : Option Request) (notes : Option String)
    (shiprocketEmail : Bool) (shopifyOrderFound : Bool)
    (pickup : Option SrResult) (exchangeOrder : Option String)
    (forward : Option SrResult) (now : String) : ApproveOut :=
  match db with
  | none => ⟨none, ApproveResp.notFound, 0, 0, 0⟩
  | some rd =>
    let adminNotes0 := notes.getD ""
    if rd.status = Status.pending then
      if shiprocketEmail ∧ shopifyOrderFound then
        match pickup with
        | some sr =>
          if !sr.shipmentId.isEmpty then
            let u : Updates :=
              { shipmentId := some sr.shipmentId
                awbNumber := sr.awbCode
                pickupDate := sr.pickupDate
                status := some Status.scheduled
                adminNotes := some (adminNotes0 ++ "\nPickup scheduled: AWB "
                  ++ sr.awbCode.getD "undefined") }
            let r2 := updateRequestStatus rd u now
            ⟨some r2, ApproveResp.scheduledOk r2, 1, 0, 0⟩
          else ⟨some rd, ApproveResp.pickupFailed, 1, 0, 0⟩
        | none => ⟨some rd, ApproveResp.pickupFailed, 1, 0, 0⟩
      else ⟨some rd, ApproveResp.configMissing, 0, 0, 0⟩
    else
      let finalizeExchange := rd.type = ReqType.exch ∧ rd.status ≠ Status.approved
      let replacementOrderCalls := if finalizeExchange then 1 else 0
      let notes1 :=
        if finalizeExchange then
          match exchangeOrder with
          | some nm => adminNotes0 ++ "\nShopify Replacement Order Created: #" ++ nm
          | none => adminNotes0
        else adminNotes0
      let forwardShipmentCalls := if finalizeExchange ∧ shiprocketEmail then 1 else 0
      let forwardOk : Option SrResult :=
        if finalizeExchange ∧ shiprocketEmail then
          match forward with
          | some f => if !f.shipmentId.isEmpty then some f else none
          | none => none
        else none
      let notes2 :=
        if finalizeExchange ∧ shiprocketEmail then
          match forwardOk with
          | some f => notes1 ++ "\nReplacement Shipment Created (Shiprocket ID: "
              ++ f.shipmentId ++ ")"
          | none => notes1 ++ "\nFailed to create replacement shipment in Shiprocket. Check logs."
        else notes1
      let u : Updates :=
        { forwardShipmentId := forwardOk.map SrResult.shipmentId
          forwardAwbNumber := forwardOk.map (fun f => f.awbCode.getD "")
          forwardStatus := forwardOk.map (fun _ => Status.scheduled)
          status := some Status.approved
          adminNotes := some notes2 }
      let r2 := updateRequestStatus rd u now
      ⟨some r2, ApproveResp.approvedOk r2, 0, replacementOrderCalls, forwardShipmentCalls⟩

/-- server.js lines 3449-3469, `POST /api/admin/mark-delivered`: manual
override passing `status: 'delivered'` and a `deliveredAt` timestamp to
`updateRequestStatus`. -/
def markDelivered (r : Request) (now : String) : Request :=
  updateRequestStatus r { status := some Status.delivered, deliveredAt := some now } now

/-- server.js lines 3503-3515: keyword classification of a raw carrier status
string inside the sync-status handler.  `current` is the stored status
(`newStatus` starts as `req.status` and is only reassigned on a keyword hit). -/
def classifyReturnStatus (raw : String) (current : Status) : Status :=
  let statusUpper := jsToUpper raw
  if jsIncludes statusUpper "DELIVERED" ∨ jsIncludes statusUpper "CLOSED"
      ∨ jsIncludes statusUpper "RETURN RECEIVED" then Status.delivered
  else if jsIncludes statusUpper "PICKED UP"
      ∨ jsIncludes statusUpper "PICKUP GENERATED" then Status.picked_up
  else if jsIncludes statusUpper "IN TRANSIT" ∨ jsIncludes statusUpper "SHIPPED"
      ∨ jsIncludes statusUpper "OUT FOR DELIVERY" then Status.in_transit
  else if jsIncludes statusUpper "SCHEDULED" ∨ jsIncludes statusUpper "GENERATED"
      ∨ jsIncludes statusUpper "AWB ASSIGNED" then Status.scheduled
  else if jsIncludes statusUpper "RTO" ∨ jsIncludes statusUpper "REJECTED"
      ∨ jsIncludes statusUpper "CANCELLED" then Status.rejected
  else current

/-- Tracking payload extracted from a Shiprocket track response in the
sync-status handler: the reported `current_status` text and the carrier AWB
(`shipment_track[0].awb_code || awb_code`). -/
structure TrackingInfo where
  currentStatus : Option String
  newAwb : Option String
deriving DecidableEq, Repr

/-- server.js lines 3488-3528: the return-track sync step for one request of
the sync-status handler.  `tracking` is the tracking data fetched via AWB or
shipment id (`none` when both lookups failed or returned no tracking_data).
Returns the stored row afterwards and the `updatedCount` increment. -/
def syncReturnStep (r : Request) (tracking : Option TrackingInfo)
    (now : String) : Request × Nat :=
  if r.status = Status.pending ∨ r.status = Status.scheduled
      ∨ r.status = Status.picked_up ∨ r.status = Status.in_transit then
    match tracking with
    | some t =>
      match t.currentStatus with
      | some cs =>
        if !cs.isEmpty then
          let newAwb := t.newAwb
          let newStatus := classifyReturnStatus cs r.status
          if newStatus ≠ r.status ∨ (truthy newAwb ∧ newAwb ≠ r.awbNumber) then
            let u : Updates :=
              { status := some newStatus
                deliveredAt := if newStatus = Status.delivered then some now else none
                pickedUpAt := if newStatus = Status.picked_up then some now else none
                inTransitAt := if newStatus = Status.in_transit then some now else none
                awbNumber := if truthy newAwb then newAwb else none }
            (updateRequestStatus r u now, 1)
          else (r, 0)
        else (r, 0)
      | none => (r, 0)
    | none => (r, 0)
  else (r, 0)

/-- server.js lines 3530-3552: the forward-track sync step for one request.
`tracking` is the forward AWB tracking result (`none` when the call failed or
returned no tracking_data). -/
def syncForwardStep (r : Request) (tracking : Option TrackingInfo)
    (now : String) : Request × Nat :=
  if r.type = ReqType.exch ∧ truthy r.forwardAwbNumber
      ∧ r.forwardStatus ≠ some Status.delivered then
    match tracking with
    | some t =>
      let cs := jsToUpper (t.currentStatus.getD "")
      let newForwardStatus :=
        if jsIncludes cs "DELIVERED" then some Status.delivered
        else if jsIncludes cs "PICKED UP" ∨ jsIncludes cs "PICKUP GENERATED" then
          some Status.picked_up
        else if jsIncludes cs "IN TRANSIT" ∨ jsIncludes cs "SHIPPED"
            ∨ jsIncludes cs "OUT FOR DELIVERY" then some Status.in_transit
        else if r.forwardStatus.isSome then r.forwardStatus else some Status.scheduled
      if newForwardStatus ≠ r.forwardStatus then
        (updateRequestStatus r { forwardStatus := newForwardStatus } now, 1)
      else (r, 0)
    | none => (r, 0)
  else (r, 0)

/-- The parts of a Shopify order the lookup match rule reads:
`customer.email`, `customer.phone`, `shipping_address.phone`. -/
structure ShopifyOrder where
  customerEmail : Option String
  customerPhone : Option String
  shippingPhone : Option String
deriving DecidableEq, Repr

/-- server.js lines 2415-2432: the per-order match predicate of
`POST /api/lookup-order`.  `input` is the request's `email` field (used for
both the email and the phone comparison). -/
def orderMatches (input : String) (o : ShopifyOrder) : Bool :=
  let normalizedInput := jsTrim (jsToLower input)
  let inputDigits := digitsOnly normalizedInput
  let customerEmail := (o.customerEmail.map jsToLower).getD ""
  let customerPhone := digitsOnly (o.customerPhone.getD "")
  let shippingPhone := digitsOnly (o.shippingPhone.getD "")
  if !customerEmail.isEmpty ∧ customerEmail = normalizedInput then true
  else if inputDigits.length ≥ 10 then
    jsEndsWith customerPhone (sliceLast 10 inputDigits)
      ∨ jsEndsWith shippingPhone (sliceLast 10 inputDigits)
  else false

/-- server.js lines 2386-2392: the alternate order-number form tried on retry —
the leading `#` removed if present, otherwise added. -/
def toggleHash (s : String) : String :=
  if jsStartsWith s "#" then jsDropOne s else "#" ++ s

/-- Result of `POST /api/lookup-order` as far as the claim needs it:
404 because no order came back under either order-number form, 404 because no
returned order matched the email/phone, or the first matching order. -/
inductive LookupResult
  | orderNotFound
  | matchNotFound
  | found (o : ShopifyOrder)
deriving DecidableEq, Repr

/-- server.js lines 2373-2441, `POST /api/lookup-order`.  `fetch` is the
Shopify order search keyed by the `name` query parameter. -/
def lookupOrder (fetch : String → List ShopifyOrder)
    (orderNumber input : String) : LookupResult :=
  let data := fetch orderNumber
  let data2 := if data.isEmpty then fetch (toggleHash orderNumber) else data
  if data2.isEmpty then LookupResult.orderNotFound
  else
    match data2.find? (fun o => orderMatches input o) with
    | some o => LookupResult.found o
    | none => LookupResult.matchNotFound

/-- Response of the Razorpay webhook handler: 400 on a signature mismatch,
200 `{status:'ok'}` otherwise. -/
inductive WebhookResp
  | invalidSignature
  | ok
deriving DecidableEq, Repr

/-- Outcome of a webhook delivery: stored row afterwards, HTTP response, how
many times `finalizeRequestAfterPayment` was invoked, and how many reverse
pickups that finalization triggered. -/
structure WebhookOut where
  db : Option Request
  response : WebhookResp
  finalizeCalls : Nat
  pickupCalls : Nat
deriving DecidableEq, Repr

/-- server.js lines 3630-3668, `POST /api/razorpay-webhook`.

`secret` models `process.env.RAZORPAY_WEBHOOK_SECRET`, `signature` the
`x-razorpay-signature` header, `hmacHex secret rawBody` the hex HMAC-SHA256 of
the raw request body under the secret (the digest computation itself is left
abstract), `event` the payload event name, `noteRequestId` the
`payment.notes.requestId` field, `paymentId`/`amount` the payment entity
fields, and `db`/`shiprocketEmail`/`pickup`/`now` are passed to
`finalizeRequestAfterPayment` when it is invoked.

Note the guard: the signature is checked only when `secret` AND `signature`
are both truthy; when the secret is configured but the header is absent, the
handler falls through and processes the event unverified. -/
def razorpayWebhook (secret : Option String) (signature : Option String)
    (hmacHex : String → String → String) (rawBody : String)
    (event : String) (noteRequestId : Option String)
    (paymentId : String) (amount : Option Int)
    (db : Option Request) (shiprocketEmail : Bool)
    (pickup : Option SrResult) (now : String) : WebhookOut :=
  if truthy secret ∧ truthy signature then
    if signature ≠ some (hmacHex (secret.getD "") rawBody) then
      ⟨db, WebhookResp.invalidSignature, 0, 0⟩
    else
      razorpayWebhookProcess event noteRequestId paymentId amount db
        shiprocketEmail pickup now
  else
    razorpayWebhookProcess event noteRequestId paymentId amount db
      shiprocketEmail pickup now
where
  /-- server.js lines 3650-3665: the event-processing tail of the handler. -/
  razorpayWebhookProcess (event : String) (noteRequestId : Option String)
      (paymentId : String) (amount : Option Int) (db : Option Request)
      (shiprocketEmail : Bool) (pickup : Option SrResult)
      (now : String) : WebhookOut :=
    if (event = "payment.captured" ∨ event = "payment.authorized")
        ∧ noteRequestId.any (fun rid => !rid.isEmpty && jsStartsWith rid "REQ-") = true then
      let o := finalizeRequestAfterPayment db paymentId amount shiprocketEmail pickup now
      ⟨o.db, WebhookResp.ok, 1, o.pickupCalls⟩
    else ⟨db, WebhookResp.ok, 0, 0⟩

/-- Spec-side (claim C7): case-insensitive keyword match — the keyword occurs
in the raw carrier text, ignoring case. -/
def matchesKeywordCI (raw kw : String) : Bool := jsIncludes (jsToUpper raw) (jsToUpper kw)

/-- Spec-side (claim C7): the classifier as the claim words it — keyword
classes tried in priority order delivered/closed/return-received, then
picked-up/pickup-generated, then in-transit/shipped/out-for-delivery, then
scheduled/generated/awb-assigned, then RTO/rejected/cancelled, each matched
case-insensitively as a substring, with the stored status kept when no
keyword matches. -/
def classifyCarrierStatusSpec (raw : String) (current : Status) : Status :=
  if matchesKeywordCI raw "delivered" ∨ matchesKeywordCI raw "closed"
      ∨ matchesKeywordCI raw "return received" then Status.delivered
  else if matchesKeywordCI raw "picked up"
      ∨ matchesKeywordCI raw "pickup generated" then Status.picked_up
  else if matchesKeywordCI raw "in transit" ∨ matchesKeywordCI raw "shipped"
      ∨ matchesKeywordCI raw "out for delivery" then Status.in_transit
  else if matchesKeywordCI raw "scheduled" ∨ matchesKeywordCI raw "generated"
      ∨ matchesKeywordCI raw "awb assigned" then Status.scheduled
  else if matchesKeywordCI raw "rto" ∨ matchesKeywordCI raw "rejected"
      ∨ matchesKeywordCI raw "cancelled" then Status.rejected
  else current

/-- C7: The carrier-status classifier maps any raw free-text carrier status to
the canonical enum by case-insensitive substring matching with priority order
delivered/closed/return-received > picked-up/pickup-generated >
in-transit/shipped/out-for-delivery > scheduled/generated/awb-assigned >
RTO/rejected/cancelled, and yields no transition (status unchanged) when no
keyword matches: the code's classifier coincides with the spec-worded one on
every input. -/
theorem classifier_matches_spec (raw : String) (current : Status) :
    classifyReturnStatus raw current = classifyCarrierStatusSpec raw current := rfl

/-- C10: `updateRequestStatus` persists only status, adminNotes, awbNumber,
shipmentId and pickupDate (stamping approved_at / rejected_at when the new
status is approved / rejected); every other field supplied in `updates` —
paymentId, paymentAmount, deliveredAt, pickedUpAt, inTransitAt,
forwardShipmentId, forwardAwbNumber, forwardStatus — is discarded and the
corresponding stored column is left unchanged. -/
theorem updateRequestStatus_frame (r : Request) (u : Updates) (now : String) :
    (updateRequestStatus r u now).paymentId = r.paymentId ∧
    (updateRequestStatus r u now).paymentAmount = r.paymentAmount ∧
    (updateRequestStatus r u now).deliveredAt = r.deliveredAt ∧
    (updateRequestStatus r u now).pickedUpAt = r.pickedUpAt ∧
    (updateRequestStatus r u now).inTransitAt = r.inTransitAt ∧
    (updateRequestStatus r u now).forwardShipmentId = r.forwardShipmentId ∧
    (updateRequestStatus r u now).forwardAwbNumber = r.forwardAwbNumber ∧
    (updateRequestStatus r u now).forwardStatus = r.forwardStatus ∧
    (updateRequestStatus r u now).requestId = r.requestId ∧
    (updateRequestStatus r u now).orderNumber = r.orderNumber ∧
    (updateRequestStatus r u now).type = r.type ∧
    (updateRequestStatus r u now).reason = r.reason ∧
    (updateRequestStatus r u now).status = u.status.getD r.status ∧
    (updateRequestStatus r u now).adminNotes
      = (if u.adminNotes.isSome then u.adminNotes else r.adminNotes) ∧
    (updateRequestStatus r u now).awbNumber
      = (if truthy u.awbNumber then u.awbNumber else r.awbNumber) ∧
    (updateRequestStatus r u now).shipmentId
      = (if truthy u.shipmentId then u.shipmentId else r.shipmentId) ∧
    (updateRequestStatus r u now).pickupDate
      = (if truthy u.pickupDate then u.pickupDate else r.pickupDate) ∧
    (updateRequestStatus r u now).approvedAt
      = (if u.status = some Status.approved then some now else r.approvedAt) ∧
    (updateRequestStatus r u now).rejectedAt
      = (if u.status = some Status.rejected then some now else r.rejectedAt) := by
  obtain ⟨h1, h2, h3, h4, h5, h6, h7, h8, h9, h10, h11, h12, h13, h14, h15, h16, h17, h18, h19⟩ :=
    updateRequestStatus_spec r u now
  exact ⟨h5, h6, h7, h8, h9, h10, h11, h12, h1, h2, h3, h4, h13, h14, h15, h16, h17, h18, h19⟩

/-- C1 (code bug): a return submitted with the non-fee-waived reason
`changed_mind` and no payment id is persisted with status `pending`, not
`waiting_payment` — `createRequest` (db-helpers.js line 19) ignores the
handler-computed status and stores `awbNumber ? 'scheduled' : 'pending'`.
The rest of the claim holds at this input: the reverse-pickup side effect is
not invoked and no shipmentId or awbNumber is stored. -/
theorem submit_unpaid_persists_pending :
    (submitRequest ReqType.ret "REQ-10001" "1001" "changed_mind" none none
        true none true (some ⟨"SH-1", some "AWB-1", some "2025-01-01"⟩)).pickupCalls = 0 ∧
    ((submitRequest ReqType.ret "REQ-10001" "1001" "changed_mind" none none
        true none true (some ⟨"SH-1", some "AWB-1", some "2025-01-01"⟩)).record.map
          Request.status) = some Status.pending ∧
    ((submitRequest ReqType.ret "REQ-10001" "1001" "changed_mind" none none
        true none true (some ⟨"SH-1", some "AWB-1", some "2025-01-01"⟩)).record.bind
          Request.shipmentId) = none ∧
    ((submitRequest ReqType.ret "REQ-10001" "1001" "changed_mind" none none
        true none true (some ⟨"SH-1", some "AWB-1", some "2025-01-01"⟩)).record.bind
          Request.awbNumber) = none := by
  refine ⟨rfl, rfl, rfl, rfl⟩

/-- A stored row in `waiting_payment` with no payment recorded, used for the
payment-finalization evaluation. -/
def c3Stored : Request :=
  { requestId := "REQ-20001", orderNumber := "1002", type := ReqType.ret,
    status := Status.waiting_payment, reason := "changed_mind",
    paymentId := none, paymentAmount := none, awbNumber := none,
    shipmentId := none, pickupDate := none, adminNotes := none,
    approvedAt := none, rejectedAt := none, deliveredAt := none,
    pickedUpAt := none, inTransitAt := none, forwardShipmentId := none,
    forwardAwbNumber := none, forwardStatus := none }

/-- C3 (code bug): on the first finalization of a `waiting_payment` request
the supplied paymentId and paymentAmount are NOT persisted — the handler puts
them in `updates` but `updateRequestStatus` (db-helpers.js lines 133-157)
discards them — while the status transition of the claim does happen
(`scheduled` here, where pickup scheduling succeeds, with the shipment id
stored; the payment is not rolled back, the call reports success). -/
theorem finalize_drops_payment_fields :
    ((finalizeRequestAfterPayment (some c3Stored) "pay_ABC" (some 499) true
        (some ⟨"SH-3", some "AWB-3", some "2025-01-02"⟩) "t3").db.bind
          Request.paymentId) = none ∧
    ((finalizeRequestAfterPayment (some c3Stored) "pay_ABC" (some 499) true
        (some ⟨"SH-3", some "AWB-3", some "2025-01-02"⟩) "t3").db.bind
          (fun r => r.paymentAmount)) = none ∧
    ((finalizeRequestAfterPayment (some c3Stored) "pay_ABC" (some 499) true
        (some ⟨"SH-3", some "AWB-3", some "2025-01-02"⟩) "t3").db.map
          Request.status) = some Status.scheduled ∧
    ((finalizeRequestAfterPayment (some c3Stored) "pay_ABC" (some 499) true
        (some ⟨"SH-3", some "AWB-3", some "2025-01-02"⟩) "t3").db.bind
          Request.shipmentId) = some "SH-3" ∧
    (finalizeRequestAfterPayment (some c3Stored) "pay_ABC" (some 499) true
        (some ⟨"SH-3", some "AWB-3", some "2025-01-02"⟩) "t3").result
      = FinalizeResult.finalized Status.scheduled ∧
    (finalizeRequestAfterPayment (some c3Stored) "pay_ABC" (some 499) true
        (some ⟨"SH-3", some "AWB-3", some "2025-01-02"⟩) "t3").pickupCalls = 1 := by
  refine ⟨rfl, rfl, rfl, rfl, rfl, rfl⟩

/-- A stored row in `waiting_payment` awaiting the webhook. -/
def c8Stored : Request :=
  { requestId := "REQ-30001", orderNumber := "1003", type := ReqType.ret,
    status := Status.waiting_payment, reason := "changed_mind",
    paymentId := none, paymentAmount := none, awbNumber := none,
    shipmentId := none, pickupDate := none, adminNotes := none,
    approvedAt := none, rejectedAt := none, deliveredAt := none,
    pickedUpAt := none, inTransitAt := none, forwardShipmentId := none,
    forwardAwbNumber := none, forwardStatus := none }

/-- C8 (code bug): with the webhook secret configured and the
`x-razorpay-signature` header ABSENT, the handler does not reject — the guard
`if (secret && signature)` skips verification entirely and the
`payment.captured` event is processed, finalizing the stored request (one
`finalizeRequestAfterPayment` call, the row leaving `waiting_payment`),
although no signature was ever verified. -/
theorem webhook_missing_signature_processed :
    (razorpayWebhook (some "whsec_1") none (fun s b => s ++ b) "rawbody"
        "payment.captured" (some "REQ-30001") "pay_9" (some 199)
        (some c8Stored) false none "t8").response = WebhookResp.ok ∧
    (razorpayWebhook (some "whsec_1") none (fun s b => s ++ b) "rawbody"
        "payment.captured" (some "REQ-30001") "pay_9" (some 199)
        (some c8Stored) false none "t8").finalizeCalls = 1 ∧
    ((razorpayWebhook (some "whsec_1") none (fun s b => s ++ b) "rawbody"
        "payment.captured" (some "REQ-30001") "pay_9" (some 199)
        (some c8Stored) false none "t8").db.map Request.status)
      = some Status.pending := by
  refine ⟨rfl, rfl, rfl⟩

/-- A request whose reverse shipment is stored as already in transit. -/
def c5Stored : Request :=
  { requestId := "REQ-40001", orderNumber := "1004", type := ReqType.ret,
    status := Status.in_transit, reason := "changed_mind",
    paymentId := none, paymentAmount := none, awbNumber := some "AWB-5",
    shipmentId := some "SH-5", pickupDate := none, adminNotes := none,
    approvedAt := none, rejectedAt := none, deliveredAt := none,
    pickedUpAt := none, inTransitAt := some "t0", forwardShipmentId := none,
    forwardAwbNumber := none, forwardStatus := none }

/-- C5 counterexample: reconciliation DOES move a request backward — a request
stored as `in_transit` whose carrier reports "Pickup Generated" is written
back to `picked_up` (the handler writes the classified status whenever it
differs from the stored one, with no ordering check). -/
theorem sync_moves_in_transit_back :
    c5Stored.status = Status.in_transit ∧
    (syncReturnStep c5Stored (some ⟨some "Pickup Generated", none⟩) "t5").1.status
      = Status.picked_up ∧
    (syncReturnStep c5Stored (some ⟨some "Pickup Generated", none⟩) "t5").2 = 1 := by
  refine ⟨rfl, rfl, rfl⟩

/-- C5 as amended: on the return track the sync step writes exactly the
classified status whenever it differs from the stored one — forward OR
backward in the lifecycle order — and never touches a request whose stored
status is outside the active set pending/scheduled/picked_up/in_transit (so
delivered, approved and rejected are never reverted); when the classified
status equals the stored one and the carrier AWB brings nothing new, nothing
is written.  On the forward track the claimed monotonicity does hold, and
vacuously so: the forward sync step never changes the stored record at all,
because `updateRequestStatus` discards the `forwardStatus` it is passed, so
the stored forward status never moves backward. -/
theorem sync_writes_classified_status :
    (∀ (r : Request) (t : Option TrackingInfo) (now : String),
      (r.status = Status.delivered ∨ r.status = Status.approved
        ∨ r.status = Status.rejected ∨ r.status = Status.waiting_payment) →
      syncReturnStep r t now = (r, 0)) ∧
    (∀ (r : Request) (cs : String) (awb : Option String) (now : String),
      (r.status = Status.pending ∨ r.status = Status.scheduled
        ∨ r.status = Status.picked_up ∨ r.status = Status.in_transit) →
      cs.isEmpty = false →
      classifyReturnStatus cs r.status ≠ r.status →
      (syncReturnStep r (some ⟨some cs, awb⟩) now).1.status
          = classifyReturnStatus cs r.status ∧
        (syncReturnStep r (some ⟨some cs, awb⟩) now).2 = 1) ∧
    (∀ (r : Request) (cs : String) (awb : Option String) (now : String),
      classifyReturnStatus cs r.status = r.status →
      (truthy awb = false ∨ awb = r.awbNumber) →
      syncReturnStep r (some ⟨some cs, awb⟩) now = (r, 0)) ∧
    (∀ (r : Request) (t : Option TrackingInfo) (now : String),
      (syncForwardStep r t now).1 = r) := by
  refine ⟨?_, ?_, ?_, ?_⟩
  · intro r t now h
    rcases h with h | h | h | h <;> simp [syncReturnStep, h]
  · intro r cs awb now hact hcs hne
    rcases hact with h | h | h | h <;> rw [h] at hne <;>
      simp [syncReturnStep, h, hcs, hne, updateRequestStatus, applyUpdate,
        buildUpdateData]
  · intro r cs awb now heq hawb
    by_cases hact : r.status = Status.pending ∨ r.status = Status.scheduled
        ∨ r.status = Status.picked_up ∨ r.status = Status.in_transit
    · have hcond : ¬(classifyReturnStatus cs r.status ≠ r.status
          ∨ (truthy awb ∧ awb ≠ r.awbNumber)) := by
        rcases hawb with h | h
        · simp [heq, h]
        · simp [heq, h]
      by_cases hcs : cs.isEmpty
      · simp [syncReturnStep, hact, hcs]
      · simp [syncReturnStep, hact, hcs, hcond]
    · simp [syncReturnStep, hact]
  · intro r t now
    have hstep : ∀ (nf : Option Status),
        (if nf ≠ r.forwardStatus
          then (updateRequestStatus r { forwardStatus := nf } now, 1)
          else (r, 0)).1 = r := by
      intro nf
      split
      · simp [updateRequestStatus, applyUpdate, buildUpdateData, truthy]
      · rfl
    simp only [syncForwardStep]
    split
    · split
      · exact hstep _
      · rfl
    · rfl

/-- Concrete instance for the amended sync theorem: a `scheduled` request
whose carrier reports a picked-up event advances to `picked_up`. -/
theorem sync_writes_classified_status_witness :
    ((syncReturnStep
        { requestId := "REQ-40002", orderNumber := "1004", type := ReqType.ret,
          status := Status.scheduled, reason := "changed_mind",
          paymentId := none, paymentAmount := none, awbNumber := some "AWB-5",
          shipmentId := some "SH-5", pickupDate := none, adminNotes := none,
          approvedAt := none, rejectedAt := none, deliveredAt := none,
          pickedUpAt := none, inTransitAt := none, forwardShipmentId := none,
          forwardAwbNumber := none, forwardStatus := none }
        (some ⟨some "Shipment Picked Up by Courier", none⟩) "tw").1.status
      = classifyReturnStatus "Shipment Picked Up by Courier" Status.scheduled ∧
      (syncReturnStep
        { requestId := "REQ-40002", orderNumber := "1004", type := ReqType.ret,
          status := Status.scheduled, reason := "changed_mind",
          paymentId := none, paymentAmount := none, awbNumber := some "AWB-5",
          shipmentId := some "SH-5", pickupDate := none, adminNotes := none,
          approvedAt := none, rejectedAt := none, deliveredAt := none,
          pickedUpAt := none, inTransitAt := none, forwardShipmentId := none,
          forwardAwbNumber := none, forwardStatus := none }
        (some ⟨some "Shipment Picked Up by Courier", none⟩) "tw").2 = 1) :=
  sync_writes_classified_status.2.1 _ "Shipment Picked Up by Courier" none "tw"
    (Or.inr (Or.inl rfl)) (by decide) (by decide)

/-- Whether an approve response is an HTTP success (`res.json({success:true})`
paths: pickup-initiated or approved). -/
def isSuccessResp : ApproveResp → Bool
  | ApproveResp.scheduledOk _ => true
  | ApproveResp.approvedOk _ => true
  | _ => false

/-- A request in `pending` awaiting admin action. -/
def c6Pending : Request :=
  { requestId := "REQ-50001", orderNumber := "1005", type := ReqType.ret,
    status := Status.pending, reason := "changed_mind",
    paymentId := none, paymentAmount := none, awbNumber := none,
    shipmentId := none, pickupDate := none, adminNotes := none,
    approvedAt := none, rejectedAt := none, deliveredAt := none,
    pickedUpAt := none, inTransitAt := none, forwardShipmentId := none,
    forwardAwbNumber := none, forwardStatus := none }

/-- A delivered exchange awaiting final approval. -/
def c6Exchange : Request :=
  { requestId := "REQ-50002", orderNumber := "1006", type := ReqType.exch,
    status := Status.delivered, reason := "changed_mind",
    paymentId := none, paymentAmount := none, awbNumber := some "AWB-6",
    shipmentId := some "SH-6", pickupDate := none, adminNotes := none,
    approvedAt := none, rejectedAt := none, deliveredAt := some "t0",
    pickedUpAt := none, inTransitAt := none, forwardShipmentId := none,
    forwardAwbNumber := none, forwardStatus := none }

/-- C6 counterexample.  First instance: a successful approve call on a
`pending` request leaves the stored record `scheduled` (pickup initiation),
not `approved`, and stamps no approvedAt.  Second instance: on a delivered
exchange whose replacement-order creation fails (the adapter returned null),
the sub-operation failure is NOT appended to adminNotes — the notes are
persisted unchanged — even though the call was made and approval succeeded. -/
theorem approve_not_always_approved :
    isSuccessResp (approveRequest (some c6Pending) none true true
        (some ⟨"SH-60", some "AWB-60", some "2025-02-01"⟩) none none "t6").resp = true ∧
    ((approveRequest (some c6Pending) none true true
        (some ⟨"SH-60", some "AWB-60", some "2025-02-01"⟩) none none "t6").db.map
          Request.status) = some Status.scheduled ∧
    ((approveRequest (some c6Pending) none true true
        (some ⟨"SH-60", some "AWB-60", some "2025-02-01"⟩) none none "t6").db.bind
          Request.approvedAt) = none ∧
    (approveRequest (some c6Exchange) (some "note") false true none none none
        "t6b").replacementOrderCalls = 1 ∧
    isSuccessResp (approveRequest (some c6Exchange) (some "note") false true none
        none none "t6b").resp = true ∧
    ((approveRequest (some c6Exchange) (some "note") false true none none none
        "t6b").db.bind Request.adminNotes) = some "note" := by
  refine ⟨rfl, rfl, rfl, rfl, rfl, rfl⟩

/-- C6 as amended: for every existing request NOT in `pending`, an approve
call always succeeds and leaves the stored record `approved` with approvedAt
stamped to the call time, regardless of the outcome of the best-effort
sub-operations; when the forward-shipment creation of a finalizing exchange
fails, the fixed warning line is appended to the persisted adminNotes (while
a failed replacement-order creation contributes no note, as the adapter
returns null and the handler only annotates successes).  On a `pending`
request, approve instead attempts pickup initiation and never sets
`approved`. -/
theorem approve_non_pending_always_approves :
    (∀ (rd : Request) (notes : Option String) (se sof : Bool)
        (pickup : Option SrResult) (exo : Option String) (fwd : Option SrResult)
        (now : String),
      rd.status ≠ Status.pending →
      isSuccessResp (approveRequest (some rd) notes se sof pickup exo fwd now).resp
          = true ∧
        ((approveRequest (some rd) notes se sof pickup exo fwd now).db.map
            Request.status) = some Status.approved ∧
        ((approveRequest (some rd) notes se sof pickup exo fwd now).db.bind
            Request.approvedAt) = some now) ∧
    (∀ (rd : Request) (notes : Option String) (sof : Bool)
        (pickup : Option SrResult) (exo : Option String) (now : String),
      rd.status ≠ Status.pending → rd.type = ReqType.exch →
      rd.status ≠ Status.approved →
      ((approveRequest (some rd) notes true sof pickup exo none now).db.bind
          Request.adminNotes)
        = some ((match exo with
            | some nm => notes.getD "" ++ "\nShopify Replacement Order Created: #" ++ nm
            | none => notes.getD "")
          ++ "\nFailed to create replacement shipment in Shiprocket. Check logs.")) := by
  constructor
  · intro rd notes se sof pickup exo fwd now h
    simp [approveRequest, h, isSuccessResp, updateRequestStatus, applyUpdate,
      buildUpdateData]
  · intro rd notes sof pickup exo now h htype happ
    cases exo <;>
      simp [approveRequest, h, htype, happ, updateRequestStatus, applyUpdate,
        buildUpdateData]

/-- Concrete instance for the amended approve theorem: approving a delivered
exchange with both sub-operations failing still approves, stamps approvedAt,
and appends the forward-shipment warning to the notes. -/
theorem approve_non_pending_always_approves_witness :
    (isSuccessResp (approveRequest (some c6Exchange) (some "note") true true none
        none none "t6c").resp = true ∧
      ((approveRequest (some c6Exchange) (some "note") true true none none none
          "t6c").db.map Request.status) = some Status.approved ∧
      ((approveRequest (some c6Exchange) (some "note") true true none none none
          "t6c").db.bind Request.approvedAt) = some "t6c") ∧
    ((approveRequest (some c6Exchange) (some "note") true true none none none
        "t6c").db.bind Request.adminNotes)
      = some ("note" ++ "\nFailed to create replacement shipment in Shiprocket. Check logs.") :=
  ⟨approve_non_pending_always_approves.1 c6Exchange (some "note") true true none
      none none "t6c" (by decide),
    approve_non_pending_always_approves.2 c6Exchange (some "note") true none none
      "t6c" (by decide) (by decide) (by decide)⟩

/-- Shared helper: a row stored by `finalizeRequestAfterPayment` is never in
`waiting_payment` — the call either passes the row through untouched (and
then it was not in `waiting_payment`) or rewrites its status to `pending` or
`scheduled`. -/
theorem finalize_db_not_waiting (db : Option Request) (paymentId : String)
    (paymentAmount : Option Int) (shiprocketEmail : Bool)
    (pickup : Option SrResult) (now : String) (r2 : Request)
    (h : (finalizeRequestAfterPayment db paymentId paymentAmount shiprocketEmail
        pickup now).db = some r2) :
    r2.status ≠ Status.waiting_payment := by
  match db with
  | none => simp [finalizeRequestAfterPayment] at h
  | some r =>
    by_cases hs : r.status = Status.waiting_payment
    · by_cases he : shiprocketEmail <;>
        cases pickup with
        | none =>
          simp [finalizeRequestAfterPayment, hs, he, updateRequestStatus,
            applyUpdate, buildUpdateData] at h
          simp [← h]
        | some sr =>
          by_cases hsh : sr.shipmentId.isEmpty <;>
            simp [finalizeRequestAfterPayment, hs, he, hsh, updateRequestStatus,
              applyUpdate, buildUpdateData] at h <;>
            simp [← h]
    · simp [finalizeRequestAfterPayment, hs] at h
      simp [← h, hs]

/-- A request stored as `pending` that already carries a reverse shipment id
(possible because `createRequest` keys the stored status on `awbNumber` only,
so a pickup that returned a shipment id but no AWB is stored `pending`). -/
def c2Pending : Request :=
  { requestId := "REQ-60001", orderNumber := "1007", type := ReqType.ret,
    status := Status.pending, reason := "defective",
    paymentId := none, paymentAmount := none, awbNumber := none,
    shipmentId := some "SH-1", pickupDate := none, adminNotes := none,
    approvedAt := none, rejectedAt := none, deliveredAt := none,
    pickedUpAt := none, inTransitAt := none, forwardShipmentId := none,
    forwardAwbNumber := none, forwardStatus := none }

/-- C2 counterexample: the admin approve handler invokes the reverse-pickup
side effect on a `pending` request WITHOUT checking the stored `shipmentId` —
here a record that already carries shipment `SH-1` gets a second
`createShiprocketReturnOrder` call, and the new shipment `SH-2` overwrites the
stored identifier. -/
theorem approve_ignores_existing_shipment :
    c2Pending.shipmentId = some "SH-1" ∧
    (approveRequest (some c2Pending) none true true
        (some ⟨"SH-2", some "AWB-2", some "2025-03-01"⟩) none none
        "t2").reversePickupCalls = 1 ∧
    ((approveRequest (some c2Pending) none true true
        (some ⟨"SH-2", some "AWB-2", some "2025-03-01"⟩) none none "t2").db.bind
          Request.shipmentId) = some "SH-2" := by
  refine ⟨rfl, rfl, rfl⟩

/-- C2 as amended: the reverse-pickup side effect is guarded by the stored
STATUS, not by the stored shipment identifier — payment finalization invokes
it only from `waiting_payment` and admin approval only from `pending`, and no
code path checks `shipmentId` before the call.  Re-running either operation
does not re-trigger the pickup (a finalization leaves `waiting_payment`, so a
second finalization makes no pickup call; an approve that scheduled the
pickup leaves `scheduled`, so a second approve makes no reverse-pickup call),
but an approve on a `pending` record that already carries a shipmentId — as
submit produces when the carrier returned a shipment id without an AWB —
fires the side effect again. -/
theorem reverse_pickup_status_guards :
    (∀ (r : Request) (pid : String) (amt : Option Int) (se : Bool)
        (pickup : Option SrResult) (now : String),
      r.status ≠ Status.waiting_payment →
      (finalizeRequestAfterPayment (some r) pid amt se pickup now).pickupCalls = 0) ∧
    (∀ (r : Request) (notes : Option String) (se sof : Bool)
        (pickup : Option SrResult) (exo : Option String) (fwd : Option SrResult)
        (now : String),
      r.status ≠ Status.pending →
      (approveRequest (some r) notes se sof pickup exo fwd now).reversePickupCalls
        = 0) ∧
    (∀ (db : Option Request) (pid : String) (amt : Option Int) (se : Bool)
        (pickup : Option SrResult) (now now2 : String),
      (finalizeRequestAfterPayment
          (finalizeRequestAfterPayment db pid amt se pickup now).db
          pid amt se pickup now2).pickupCalls = 0) ∧
    (∀ (r : Request) (notes notes2 : Option String) (sof sof2 : Bool)
        (sr : SrResult) (exo exo2 : Option String) (fwd fwd2 : Option SrResult)
        (pickup2 : Option SrResult) (now now2 : String),
      r.status = Status.pending → sr.shipmentId.isEmpty = false →
      (approveRequest
          (approveRequest (some r) notes true true (some sr) exo fwd now).db
          notes2 true sof2 pickup2 exo2 fwd2 now2).reversePickupCalls = 0) := by
  have hfin : ∀ (r : Request) (pid : String) (amt : Option Int) (se : Bool)
      (pickup : Option SrResult) (now : String),
      r.status ≠ Status.waiting_payment →
      (finalizeRequestAfterPayment (some r) pid amt se pickup now).pickupCalls = 0 := by
    intro r pid amt se pickup now h
    simp [finalizeRequestAfterPayment, h]
  have happ : ∀ (r : Request) (notes : Option String) (se sof : Bool)
      (pickup : Option SrResult) (exo : Option String) (fwd : Option SrResult)
      (now : String),
      r.status ≠ Status.pending →
      (approveRequest (some r) notes se sof pickup exo fwd now).reversePickupCalls
        = 0 := by
    intro r notes se sof pickup exo fwd now h
    simp [approveRequest, h]
  refine ⟨hfin, happ, ?_, ?_⟩
  · intro db pid amt se pickup now now2
    cases hdb : (finalizeRequestAfterPayment db pid amt se pickup now).db with
    | none => simp [finalizeRequestAfterPayment]
    | some r2 =>
      exact hfin r2 pid amt se pickup now2
        (finalize_db_not_waiting db pid amt se pickup now r2 hdb)
  · intro r notes notes2 sof sof2 sr exo exo2 fwd fwd2 pickup2 now now2 hp hsh
    have hdb : (approveRequest (some r) notes true true (some sr) exo fwd now).db
        = some (updateRequestStatus r
          { shipmentId := some sr.shipmentId
            awbNumber := sr.awbCode
            pickupDate := sr.pickupDate
            status := some Status.scheduled
            adminNotes := some ((notes.getD "") ++ "\nPickup scheduled: AWB "
              ++ sr.awbCode.getD "undefined") } now) := by
      simp [approveRequest, hp, hsh]
    rw [hdb]
    apply happ
    simp [updateRequestStatus, applyUpdate, buildUpdateData]

/-- Concrete instance for the amended guards theorem: re-finalizing and
re-approving do not re-trigger the pickup. -/
theorem reverse_pickup_status_guards_witness :
    (finalizeRequestAfterPayment (some c2Pending) "pay_Z" (some 100) true none
        "tg").pickupCalls = 0 ∧
    (approveRequest (some c6Exchange) none true true none none none
        "tg2").reversePickupCalls = 0 ∧
    (approveRequest
        (approveRequest (some c2Pending) none true true
          (some ⟨"SH-2", some "AWB-2", none⟩) none none "tg3").db
        none true true none none none "tg4").reversePickupCalls = 0 :=
  ⟨reverse_pickup_status_guards.1 c2Pending "pay_Z" (some 100) true none "tg"
      (by decide),
    reverse_pickup_status_guards.2.1 c6Exchange none true true none none none
      "tg2" (by decide),
    reverse_pickup_status_guards.2.2.2 c2Pending none none true true
      ⟨"SH-2", some "AWB-2", none⟩ none none none none none "tg3" "tg4"
      (by decide) (by decide)⟩

/-- Two distinct rows already finalized (status `pending`), differing in their
stored payment id and notes. -/
def c4StoredA : Request :=
  { requestId := "REQ-70001", orderNumber := "1008", type := ReqType.ret,
    status := Status.pending, reason := "changed_mind",
    paymentId := some "pay_A", paymentAmount := some 100, awbNumber := none,
    shipmentId := none, pickupDate := none, adminNotes := some "first",
    approvedAt := none, rejectedAt := none, deliveredAt := none,
    pickedUpAt := none, inTransitAt := none, forwardShipmentId := none,
    forwardAwbNumber := none, forwardStatus := none }

/-- Same request id, different stored content. -/
def c4StoredB : Request :=
  { requestId := "REQ-70001", orderNumber := "1008", type := ReqType.ret,
    status := Status.pending, reason := "changed_mind",
    paymentId := some "pay_B", paymentAmount := some 250, awbNumber := none,
    shipmentId := none, pickupDate := none, adminNotes := some "second",
    approvedAt := none, rejectedAt := none, deliveredAt := none,
    pickedUpAt := none, inTransitAt := none, forwardShipmentId := none,
    forwardAwbNumber := none, forwardStatus := none }

/-- C4 counterexample: re-invocation on a request whose stored status is not
`waiting_payment` does NOT return the current record — it returns the bare
acknowledgment `{success:true, alreadyProcessed:true}`, which is the same
value for two different stored records and carries no record data. -/
theorem finalize_reinvocation_returns_no_record :
    c4StoredA ≠ c4StoredB ∧
    (finalizeRequestAfterPayment (some c4StoredA) "pay_X" (some 100) true none
        "t7").result = FinalizeResult.alreadyProcessed ∧
    (finalizeRequestAfterPayment (some c4StoredB) "pay_X" (some 100) true none
        "t7").result
      = (finalizeRequestAfterPayment (some c4StoredA) "pay_X" (some 100) true none
        "t7").result := by
  refine ⟨by decide, rfl, rfl⟩

/-- C4 as amended: `confirmPayment` (finalizeRequestAfterPayment) is
idempotent — a second invocation with the same arguments leaves the stored
state exactly where the first left it and makes no further reverse-pickup
call (so at most one across both invocations, each single invocation making
at most one), and a re-invocation on a request whose stored status is not
`waiting_payment` is a no-op that reports success with an alreadyProcessed
acknowledgment (not the current record). -/
theorem finalize_idempotent :
    (∀ (db : Option Request) (pid : String) (amt : Option Int) (se : Bool)
        (pickup : Option SrResult) (now now2 : String),
      (finalizeRequestAfterPayment
          (finalizeRequestAfterPayment db pid amt se pickup now).db
          pid amt se pickup now2).db
        = (finalizeRequestAfterPayment db pid amt se pickup now).db ∧
      (finalizeRequestAfterPayment
          (finalizeRequestAfterPayment db pid amt se pickup now).db
          pid amt se pickup now2).pickupCalls = 0 ∧
      (finalizeRequestAfterPayment db pid amt se pickup now).pickupCalls ≤ 1) ∧
    (∀ (r : Request) (pid : String) (amt : Option Int) (se : Bool)
        (pickup : Option SrResult) (now : String),
      r.status ≠ Status.waiting_payment →
      finalizeRequestAfterPayment (some r) pid amt se pickup now
        = ⟨some r, FinalizeResult.alreadyProcessed, 0⟩) := by
  have hnoop : ∀ (r : Request) (pid : String) (amt : Option Int) (se : Bool)
      (pickup : Option SrResult) (now : String),
      r.status ≠ Status.waiting_payment →
      finalizeRequestAfterPayment (some r) pid amt se pickup now
        = ⟨some r, FinalizeResult.alreadyProcessed, 0⟩ := by
    intro r pid amt se pickup now h
    simp [finalizeRequestAfterPayment, h]
  refine ⟨?_, hnoop⟩
  intro db pid amt se pickup now now2
  refine ⟨?_, ?_, ?_⟩
  · cases hdb : (finalizeRequestAfterPayment db pid amt se pickup now).db with
    | none => simp [finalizeRequestAfterPayment]
    | some r2 =>
      rw [hnoop r2 pid amt se pickup now2
        (finalize_db_not_waiting db pid amt se pickup now r2 hdb)]
  · cases hdb : (finalizeRequestAfterPayment db pid amt se pickup now).db with
    | none => simp [finalizeRequestAfterPayment]
    | some r2 =>
      rw [hnoop r2 pid amt se pickup now2
        (finalize_db_not_waiting db pid amt se pickup now r2 hdb)]
  · match db with
    | none => simp [finalizeRequestAfterPayment]
    | some r =>
      by_cases hs : r.status = Status.waiting_payment
      · simp only [finalizeRequestAfterPayment, hs]
        split
        · simp
        · split <;> simp
      · simp [finalizeRequestAfterPayment, hs]

/-- Concrete instance for the idempotence theorem: double finalization of a
`waiting_payment` row, and the no-op on an already-finalized row. -/
theorem finalize_idempotent_witness :
    ((finalizeRequestAfterPayment
        (finalizeRequestAfterPayment (some c3Stored) "pay_ABC" (some 499) true
          none "tA").db "pay_ABC" (some 499) true none "tB").db
      = (finalizeRequestAfterPayment (some c3Stored) "pay_ABC" (some 499) true
          none "tA").db ∧
      (finalizeRequestAfterPayment
        (finalizeRequestAfterPayment (some c3Stored) "pay_ABC" (some 499) true
          none "tA").db "pay_ABC" (some 499) true none "tB").pickupCalls = 0 ∧
      (finalizeRequestAfterPayment (some c3Stored) "pay_ABC" (some 499) true none
        "tA").pickupCalls ≤ 1) ∧
    finalizeRequestAfterPayment (some c4StoredA) "pay_X" (some 100) true none "tC"
      = ⟨some c4StoredA, FinalizeResult.alreadyProcessed, 0⟩ :=
  ⟨finalize_idempotent.1 (some c3Stored) "pay_ABC" (some 499) true none "tA" "tB",
    finalize_idempotent.2 c4StoredA "pay_X" (some 100) true none "tC" (by decide)⟩

/-- Helper: with a ten-character pattern, JS `endsWith` says exactly "the
string has at least ten characters and its last ten equal the pattern". -/
theorem jsEndsWith_last_ten (p x : String) (hx : x.data.length = 10) :
    jsEndsWith p x = true ↔ 10 ≤ p.data.length ∧ sliceLast 10 p = x := by
  unfold jsEndsWith
  rw [decide_eq_true_eq]
  constructor
  · intro h
    have hle := h.length_le
    rw [hx] at hle
    refine ⟨hle, ?_⟩
    have hdrop := List.suffix_iff_eq_drop.mp h
    rw [hx] at hdrop
    show sliceLast 10 p = x
    exact String.ext hdrop.symm
  · rintro ⟨hp, heq⟩
    rw [List.suffix_iff_eq_drop, hx]
    exact (congrArg String.data heq).symm

/-- Helper: the last-ten slice of a string of length at least ten has exactly
ten characters. -/
theorem sliceLast_ten_length (s : String) (h : 10 ≤ s.data.length) :
    (sliceLast 10 s).data.length = 10 := by
  unfold sliceLast
  simp only [List.length_drop]
  omega

/-- Helper: on inputs with at least ten digits, the pair of JS `endsWith`
checks of the lookup is exactly the last-ten-digits comparison of the claim. -/
theorem lookup_digits_branch (input : String) (cp sp : Option String)
    (hB : 10 ≤ (digitsOnly (jsTrim (jsToLower input))).data.length) :
    ((jsEndsWith (digitsOnly (cp.getD ""))
        (sliceLast 10 (digitsOnly (jsTrim (jsToLower input)))) = true
      ∨ jsEndsWith (digitsOnly (sp.getD ""))
        (sliceLast 10 (digitsOnly (jsTrim (jsToLower input)))) = true)
    ↔ ((10 ≤ (digitsOnly (cp.getD "")).data.length ∧
          sliceLast 10 (digitsOnly (cp.getD ""))
            = sliceLast 10 (digitsOnly (jsTrim (jsToLower input)))) ∨
        (10 ≤ (digitsOnly (sp.getD "")).data.length ∧
          sliceLast 10 (digitsOnly (sp.getD ""))
            = sliceLast 10 (digitsOnly (jsTrim (jsToLower input)))))) := by
  have hlen := sliceLast_ten_length (digitsOnly (jsTrim (jsToLower input))) hB
  constructor
  · rintro (h | h)
    · exact Or.inl ((jsEndsWith_last_ten _ _ hlen).mp h)
    · exact Or.inr ((jsEndsWith_last_ten _ _ hlen).mp h)
  · rintro (h | h)
    · exact Or.inl ((jsEndsWith_last_ten _ _ hlen).mpr h)
    · exact Or.inr ((jsEndsWith_last_ten _ _ hlen).mpr h)

/-- Spec-side (claim C9): an order matches when the supplied contact equals
the order's customer email case-insensitively (after trimming), or the
supplied contact has at least ten digits and its last ten digits equal the
last ten digits of the customer phone or of the shipping-address phone. -/
def specOrderMatches (input : String) (o : ShopifyOrder) : Prop :=
  (∃ e, o.customerEmail = some e ∧ jsToLower e ≠ ""
    ∧ jsToLower e = jsTrim (jsToLower input)) ∨
  (10 ≤ (digitsOnly (jsTrim (jsToLower input))).data.length ∧
    ((10 ≤ (digitsOnly (o.customerPhone.getD "")).data.length ∧
      sliceLast 10 (digitsOnly (o.customerPhone.getD ""))
        = sliceLast 10 (digitsOnly (jsTrim (jsToLower input)))) ∨
     (10 ≤ (digitsOnly (o.shippingPhone.getD "")).data.length ∧
      sliceLast 10 (digitsOnly (o.shippingPhone.getD ""))
        = sliceLast 10 (digitsOnly (jsTrim (jsToLower input))))))

/-- C9: the lookup matches an order exactly per the claim's rule — email
equal case-insensitively, or at least ten digits supplied whose last ten
equal the last ten digits of the customer or shipping phone — and reports
order-not-found only after also retrying once with the leading `#` toggled. -/
theorem lookup_match_rule_and_hash_retry :
    (∀ (input : String) (o : ShopifyOrder),
      orderMatches input o = true ↔ specOrderMatches input o) ∧
    (∀ (fetch : String → List ShopifyOrder) (n input : String),
      lookupOrder fetch n input = LookupResult.orderNotFound
        ↔ fetch n = [] ∧ fetch (toggleHash n) = []) := by
  constructor
  · intro input o
    simp only [orderMatches, specOrderMatches]
    cases ho : o.customerEmail with
    | none =>
      simp only [ho, Option.map_none', Option.getD_none]
      rw [if_neg (fun hc => absurd hc.1 (by decide))]
      have hspec : ¬∃ e, (none : Option String) = some e ∧ jsToLower e ≠ ""
          ∧ jsToLower e = jsTrim (jsToLower input) := by
        rintro ⟨e, he, -, -⟩
        exact Option.noConfusion he
      by_cases hB : (digitsOnly (jsTrim (jsToLower input))).length ≥ 10
      · rw [if_pos hB, decide_eq_true_eq]
        have hB2 : 10 ≤ (digitsOnly (jsTrim (jsToLower input))).data.length := hB
        constructor
        · intro h
          exact Or.inr ⟨hB2,
            (lookup_digits_branch input o.customerPhone o.shippingPhone hB2).mp h⟩
        · rintro (hl | ⟨-, h⟩)
          · exact absurd hl hspec
          · exact (lookup_digits_branch input o.customerPhone o.shippingPhone hB2).mpr h
      · rw [if_neg hB]
        constructor
        · intro h
          exact absurd h (by simp)
        · rintro (hl | ⟨hd, -⟩)
          · exact absurd hl hspec
          · exact absurd hd hB
    | some e =>
      simp only [ho, Option.map_some', Option.getD_some]
      by_cases hm : jsToLower e ≠ "" ∧ jsToLower e = jsTrim (jsToLower input)
      · have hcond : (!(jsToLower e).isEmpty) = true
            ∧ jsToLower e = jsTrim (jsToLower input) := by
          refine ⟨?_, hm.2⟩
          cases hb : (jsToLower e).isEmpty with
          | false => rfl
          | true => exact absurd ((String.isEmpty_iff _).mp hb) hm.1
        rw [if_pos hcond]
        exact iff_of_true rfl (Or.inl ⟨e, rfl, hm.1, hm.2⟩)
      · have hcond : ¬((!(jsToLower e).isEmpty) = true
            ∧ jsToLower e = jsTrim (jsToLower input)) := by
          rintro ⟨h1, h2⟩
          apply hm
          refine ⟨?_, h2⟩
          intro hx
          rw [(String.isEmpty_iff _).mpr hx] at h1
          exact Bool.noConfusion h1
        rw [if_neg hcond]
        have hspec : ¬∃ e2, (some e : Option String) = some e2 ∧ jsToLower e2 ≠ ""
            ∧ jsToLower e2 = jsTrim (jsToLower input) := by
          rintro ⟨e2, he, h1, h2⟩
          obtain rfl := Option.some.inj he
          exact hm ⟨h1, h2⟩
        by_cases hB : (digitsOnly (jsTrim (jsToLower input))).length ≥ 10
        · rw [if_pos hB, decide_eq_true_eq]
          have hB2 : 10 ≤ (digitsOnly (jsTrim (jsToLower input))).data.length := hB
          constructor
          · intro h
            exact Or.inr ⟨hB2,
              (lookup_digits_branch input o.customerPhone o.shippingPhone hB2).mp h⟩
          · rintro (hl | ⟨-, h⟩)
            · exact absurd hl hspec
            · exact (lookup_digits_branch input o.customerPhone o.shippingPhone hB2).mpr h
        · rw [if_neg hB]
          constructor
          · intro h
            exact absurd h (by simp)
          · rintro (hl | ⟨hd, -⟩)
            · exact absurd hl hspec
            · exact absurd hd hB
  · intro fetch n input
    simp only [lookupOrder]
    by_cases h1 : (fetch n).isEmpty
    · have h1e : fetch n = [] := List.isEmpty_iff.mp h1
      rw [if_pos h1]
      by_cases h2 : (fetch (toggleHash n)).isEmpty
      · rw [if_pos h2]
        exact iff_of_true rfl ⟨h1e, List.isEmpty_iff.mp h2⟩
      · have h2e : ¬fetch (toggleHash n) = [] := by
          intro h
          apply h2
          rw [h]
          rfl
        rw [if_neg h2]
        cases hf : (fetch (toggleHash n)).find? (fun o => orderMatches input o) with
        | none =>
          exact iff_of_false (fun h => LookupResult.noConfusion h)
            (fun h => h2e h.2)
        | some o2 =>
          exact iff_of_false (fun h => LookupResult.noConfusion h)
            (fun h => h2e h.2)
    · have h1e : ¬fetch n = [] := by
        intro h
        apply h1
        rw [h]
        rfl
      rw [if_neg h1, if_neg h1]
      cases hf : (fetch n).find? (fun o => orderMatches input o) with
      | none =>
        exact iff_of_false (fun h => LookupResult.noConfusion h) (fun h => h1e h.1)
      | some o2 =>
        exact iff_of_false (fun h => LookupResult.noConfusion h) (fun h => h1e h.1)

/-- The order of the spec's matching examples: customer email `a@x.com`,
phone `+91-98765-43210`. -/
def demoOrder : ShopifyOrder :=
  { customerEmail := some "a@x.com", customerPhone := some "+91-98765-43210",
    shippingPhone := none }

/-- Concrete instance of the lookup match rule on the spec's examples:
`A@X.com` matches by email, `9876543210` matches by last-ten digits,
`1234543210` does not match. -/
theorem lookup_match_rule_and_hash_retry_witness :
    (orderMatches "A@X.com" demoOrder = true
      ↔ specOrderMatches "A@X.com" demoOrder) ∧
    orderMatches "A@X.com" demoOrder = true ∧
    orderMatches "9876543210" demoOrder = true ∧
    orderMatches "1234543210" demoOrder = false :=
  ⟨lookup_match_rule_and_hash_retry.1 "A@X.com" demoOrder, rfl, rfl, rfl⟩
